import Mathlib

/-!
Shallow embedding of `src/scene/scene_material.js` (the `pc.Material` class):
a material record holding shader/render state and a named-parameter table,
with a derived blend-type view over the four raw blend fields, parameter
CRUD, cloning, and notification of attached mesh instances.

External collaborators (blend-mode constants, MeshInstance, the graphics
device) are not part of the given source file; where the embedding needs
them they are modelled from the spec, as marked on each definition.
The global mutable id counter and the in-place mutation of the material
become explicit state passing; calls out to external objects
(`meshInstances[i].updateKey()`, `device.scope.resolve`,
`scopeId.setValue`) become an explicit effect trace.
-/

/-- Modelled from the spec: the blend-factor enumeration (the engine's
`pc.BLENDMODE_*` constants, external to the given file; the source uses them
only as distinct tokens compared with `===`). -/
inductive BlendMode where
  | BLENDMODE_ZERO
  | BLENDMODE_ONE
  | BLENDMODE_SRC_COLOR
  | BLENDMODE_ONE_MINUS_SRC_COLOR
  | BLENDMODE_DST_COLOR
  | BLENDMODE_ONE_MINUS_DST_COLOR
  | BLENDMODE_SRC_ALPHA
  | BLENDMODE_SRC_ALPHA_SATURATE
  | BLENDMODE_ONE_MINUS_SRC_ALPHA
  | BLENDMODE_DST_ALPHA
  | BLENDMODE_ONE_MINUS_DST_ALPHA
  deriving DecidableEq, Repr

/-- Modelled from the spec: the blend-equation enumeration (the engine's
`pc.BLENDEQUATION_*` constants, external to the given file). -/
inductive BlendEquation where
  | BLENDEQUATION_ADD
  | BLENDEQUATION_SUBTRACT
  | BLENDEQUATION_REVERSE_SUBTRACT
  deriving DecidableEq, Repr

/-- Modelled from the spec: the cull-mode enumeration (the engine's
`pc.CULLFACE_*` constants, external to the given file). -/
inductive CullFace where
  | CULLFACE_NONE
  | CULLFACE_BACK
  | CULLFACE_FRONT
  | CULLFACE_FRONTANDBACK
  deriving DecidableEq, Repr

/-- Modelled from the spec: the blend-type preset enumeration (the engine's
`pc.BLEND_*` constants, external to the given file).  The source's doc
comment lists seven presets; `BLEND_SUBTRACTIVE` is documented but handled
by neither the getter nor the setter, so it is the concrete unrecognized
preset value. -/
inductive BlendType where
  | BLEND_SUBTRACTIVE
  | BLEND_ADDITIVE
  | BLEND_NORMAL
  | BLEND_NONE
  | BLEND_PREMULTIPLIED
  | BLEND_MULTIPLICATIVE
  | BLEND_ADDITIVEALPHA
  deriving DecidableEq, Repr, Fintype

/-- A JavaScript parameter value: number, numeric array, texture reference,
or `undefined` (`undefined` models the `undefined` that the single-argument
`setParameter` path can store). -/
inductive ParamValue where
  | num (n : Int)
  | arr (l : List Int)
  | tex (t : Nat)
  | undefined
  deriving DecidableEq, Repr

/-- One record of the parameter table: `{ scopeId: ..., data: ... }`.
`scopeId` is the cached device binding handle (`null` until resolved);
handles are modelled as `Nat` tokens so that handle identity is equality
of the token. -/
structure Param where
  scopeId : Option Nat
  data : ParamValue
  deriving DecidableEq, Repr

/-- Modelled from the spec: the slice of a MeshInstance visible to this
component — the mutable cached-shader slot that `clearVariants` nulls out
directly.  The `updateKey()` notification is modelled as an effect in the
trace, not as instance state. -/
structure MeshInstance where
  _shader : Option Nat
  deriving DecidableEq, Repr

/-- An observable call out of the Material into an external collaborator:
`updateKey i` is `meshInstances[i].updateKey()`; `resolveName n` is
`device.scope.resolve(n)`; `setValue s v` is `scopeId.setValue(v)` on the
handle token `s`. -/
inductive Effect where
  | updateKey (i : Nat)
  | resolveName (n : String)
  | setValue (s : Nat) (v : ParamValue)
  deriving DecidableEq, Repr

/-- The `Material` record: the fields assigned by the constructor
(`scene_material.js` lines 50-77).  The JS object maps (`variants`,
`parameters`) become insertion-ordered association lists; the opaque
shader reference becomes `Option Nat`. -/
structure Material where
  name : String
  id : Nat
  shader : Option Nat
  variants : List (String × Nat)
  parameters : List (String × Param)
  alphaTest : Int
  blend : Bool
  blendSrc : BlendMode
  blendDst : BlendMode
  blendEquation : BlendEquation
  cull : CullFace
  depthTest : Bool
  depthWrite : Bool
  redWrite : Bool
  greenWrite : Bool
  blueWrite : Bool
  alphaWrite : Bool
  meshInstances : List MeshInstance
  deriving DecidableEq, Repr

/-- `var Material = function Material() {...}`: the constructor defaults,
with the global id counter passed and returned explicitly (`this.id = id++`). -/
def Material.new (ctr : Nat) : Material × Nat :=
  ({ name := "Untitled"
     id := ctr
     shader := Option.none
     variants := []
     parameters := []
     alphaTest := 0
     blend := false
     blendSrc := .BLENDMODE_ONE
     blendDst := .BLENDMODE_ZERO
     blendEquation := .BLENDEQUATION_ADD
     cull := .CULLFACE_BACK
     depthTest := true
     depthWrite := true
     redWrite := true
     greenWrite := true
     blueWrite := true
     alphaWrite := true
     meshInstances := [] }, ctr + 1)

/-- The four raw blend fields as one tuple, for stating table membership. -/
def Material.blendQuad (m : Material) : Bool × BlendMode × BlendMode × BlendEquation :=
  (m.blend, m.blendSrc, m.blendDst, m.blendEquation)

/-- The `blendType` getter (lines 80-114): scan the six recognized
quadruples in source order, falling back to `BLEND_NORMAL`. -/
def Material.blendType (m : Material) : BlendType :=
  if m.blend = false ∧ m.blendSrc = .BLENDMODE_ONE ∧ m.blendDst = .BLENDMODE_ZERO
      ∧ m.blendEquation = .BLENDEQUATION_ADD then
    .BLEND_NONE
  else if m.blend = true ∧ m.blendSrc = .BLENDMODE_SRC_ALPHA
      ∧ m.blendDst = .BLENDMODE_ONE_MINUS_SRC_ALPHA
      ∧ m.blendEquation = .BLENDEQUATION_ADD then
    .BLEND_NORMAL
  else if m.blend = true ∧ m.blendSrc = .BLENDMODE_ONE ∧ m.blendDst = .BLENDMODE_ONE
      ∧ m.blendEquation = .BLENDEQUATION_ADD then
    .BLEND_ADDITIVE
  else if m.blend = true ∧ m.blendSrc = .BLENDMODE_SRC_ALPHA ∧ m.blendDst = .BLENDMODE_ONE
      ∧ m.blendEquation = .BLENDEQUATION_ADD then
    .BLEND_ADDITIVEALPHA
  else if m.blend = true ∧ m.blendSrc = .BLENDMODE_DST_COLOR ∧ m.blendDst = .BLENDMODE_ZERO
      ∧ m.blendEquation = .BLENDEQUATION_ADD then
    .BLEND_MULTIPLICATIVE
  else if m.blend = true ∧ m.blendSrc = .BLENDMODE_ONE
      ∧ m.blendDst = .BLENDMODE_ONE_MINUS_SRC_ALPHA
      ∧ m.blendEquation = .BLENDEQUATION_ADD then
    .BLEND_PREMULTIPLIED
  else
    .BLEND_NORMAL

/-- `_updateMeshInstanceKeys` (lines 193-198): the index loop
`for (i = 0; i < meshInstances.length; i++) meshInstances[i].updateKey()`,
rendered as the trace of `updateKey` calls it issues.  `i` counts up from
the current index to `len`. -/
def updateKeysFrom (len : Nat) (i : Nat) : List Effect :=
  if _h : i < len then Effect.updateKey i :: updateKeysFrom len (i + 1) else []
termination_by len - i

/-- The trace of `this._updateMeshInstanceKeys()`. -/
def Material.updateMeshInstanceKeys (m : Material) : List Effect :=
  updateKeysFrom m.meshInstances.length 0

/-- The `blendType` setter (lines 115-155): a switch that assigns all four
raw fields for a recognized preset and falls through silently otherwise,
then always calls `this._updateMeshInstanceKeys()`.  Returns the updated
material and the trace of external calls. -/
def Material.setBlendType (m : Material) (type : BlendType) : Material × List Effect :=
  let m' : Material :=
    match type with
    | .BLEND_NONE =>
        { m with blend := false, blendSrc := .BLENDMODE_ONE,
                 blendDst := .BLENDMODE_ZERO, blendEquation := .BLENDEQUATION_ADD }
    | .BLEND_NORMAL =>
        { m with blend := true, blendSrc := .BLENDMODE_SRC_ALPHA,
                 blendDst := .BLENDMODE_ONE_MINUS_SRC_ALPHA,
                 blendEquation := .BLENDEQUATION_ADD }
    | .BLEND_PREMULTIPLIED =>
        { m with blend := true, blendSrc := .BLENDMODE_ONE,
                 blendDst := .BLENDMODE_ONE_MINUS_SRC_ALPHA,
                 blendEquation := .BLENDEQUATION_ADD }
    | .BLEND_ADDITIVE =>
        { m with blend := true, blendSrc := .BLENDMODE_ONE,
                 blendDst := .BLENDMODE_ONE, blendEquation := .BLENDEQUATION_ADD }
    | .BLEND_ADDITIVEALPHA =>
        { m with blend := true, blendSrc := .BLENDMODE_SRC_ALPHA,
                 blendDst := .BLENDMODE_ONE, blendEquation := .BLENDEQUATION_ADD }
    | .BLEND_MULTIPLICATIVE =>
        { m with blend := true, blendSrc := .BLENDMODE_DST_COLOR,
                 blendDst := .BLENDMODE_ZERO, blendEquation := .BLENDEQUATION_ADD }
    | .BLEND_SUBTRACTIVE => m
  (m', m'.updateMeshInstanceKeys)

/-- The table of §4.1 of the spec, written from the spec's words: the
quadruple each recognized preset stands for, `Option.none` for the
unrecognized preset.  Used to state the table-membership claims; the code
definitions above never consult it. -/
def specBlendRow : BlendType → Option (Bool × BlendMode × BlendMode × BlendEquation)
  | .BLEND_NONE =>
      some (false, .BLENDMODE_ONE, .BLENDMODE_ZERO, .BLENDEQUATION_ADD)
  | .BLEND_NORMAL =>
      some (true, .BLENDMODE_SRC_ALPHA, .BLENDMODE_ONE_MINUS_SRC_ALPHA, .BLENDEQUATION_ADD)
  | .BLEND_PREMULTIPLIED =>
      some (true, .BLENDMODE_ONE, .BLENDMODE_ONE_MINUS_SRC_ALPHA, .BLENDEQUATION_ADD)
  | .BLEND_ADDITIVE =>
      some (true, .BLENDMODE_ONE, .BLENDMODE_ONE, .BLENDEQUATION_ADD)
  | .BLEND_ADDITIVEALPHA =>
      some (true, .BLENDMODE_SRC_ALPHA, .BLENDMODE_ONE, .BLENDEQUATION_ADD)
  | .BLEND_MULTIPLICATIVE =>
      some (true, .BLENDMODE_DST_COLOR, .BLENDMODE_ZERO, .BLENDEQUATION_ADD)
  | .BLEND_SUBTRACTIVE => Option.none

/-- `_cloneInternal` (lines 158-185): copy name and render-state scalars,
take a fresh id (`clone.id = id++`), reset shader, variants, parameters
and mesh instances.  The id counter is passed explicitly. -/
def Material.cloneInternal (m : Material) (clone : Material) (ctr : Nat) : Material × Nat :=
  ({ clone with
      name := m.name
      id := ctr
      shader := Option.none
      variants := []
      parameters := []
      alphaTest := m.alphaTest
      blend := m.blend
      blendSrc := m.blendSrc
      blendDst := m.blendDst
      blendEquation := m.blendEquation
      cull := m.cull
      depthTest := m.depthTest
      depthWrite := m.depthWrite
      redWrite := m.redWrite
      greenWrite := m.greenWrite
      blueWrite := m.blueWrite
      alphaWrite := m.alphaWrite
      meshInstances := [] }, ctr + 1)

/-- `clone` (lines 187-191): `new pc.Material()` (which consumes one id)
then `this._cloneInternal(clone)` (which consumes another). -/
def Material.clone (m : Material) (ctr : Nat) : Material × Nat :=
  let c := Material.new ctr
  m.cloneInternal c.1 c.2

/-- `clearParameters` (lines 205-207). -/
def Material.clearParameters (m : Material) : Material :=
  { m with parameters := [] }

/-- `getParameters` (lines 209-211): returns the live table. -/
def Material.getParameters (m : Material) : List (String × Param) :=
  m.parameters

/-- The loop body of `clearVariants`: null out `_shader` on every entry
of `meshInstances`, in order. -/
def clearShaders : List MeshInstance → List MeshInstance
  | [] => []
  | mi :: rest => { mi with _shader := Option.none } :: clearShaders rest

/-- `clearVariants` (lines 213-218): empty the variant cache and null out
every attached mesh instance's cached shader slot. -/
def Material.clearVariants (m : Material) : Material :=
  { m with variants := [], meshInstances := clearShaders m.meshInstances }

/-- JS object-map lookup, `this.parameters[name]`: the record stored under
`name`, or `undefined`. -/
def lookupParam (name : String) : List (String × Param) → Option Param
  | [] => Option.none
  | (n, p) :: rest => if n = name then some p else lookupParam name rest

/-- `getParameter` (lines 228-230): `return this.parameters[name]`. -/
def Material.getParameter (m : Material) (name : String) : Option Param :=
  lookupParam name m.parameters

/-- The non-recursive tail of `setParameter` (lines 256-264): if a record
for `name` exists, overwrite only its `data` (keeping its position and its
cached `scopeId`); otherwise append a fresh record with `scopeId: null`. -/
def upsertParam (name : String) (data : ParamValue) :
    List (String × Param) → List (String × Param)
  | [] => [(name, { scopeId := Option.none, data := data })]
  | (n, p) :: rest =>
      if n = name then (n, { p with data := data }) :: rest
      else (n, p) :: upsertParam name data rest

/-- The two-argument form of `setParameter` (`data !== undefined`):
`name = arg`, then the upsert of lines 256-264. -/
def Material.setParameterNamed (m : Material) (name : String) (data : ParamValue) : Material :=
  { m with parameters := upsertParam name data m.parameters }

/-- The argument of the single-argument `setParameter` overload: a
`{name, value}` object, an array, or a string (any JS value with a
`length` can enter the recursive path; the file's doc comment only
promises objects and sequences of them). -/
inductive JSArg where
  | obj (name : String) (value : ParamValue)
  | seq (elems : List JSArg)
  | str (s : String)

/-- The truthiness of `uniformObject.length` (line 245): `undefined` on a
plain object (falsy), the element count on an array, the character count
on a string. -/
def JSArg.truthyLength : JSArg → Bool
  | .obj _ _ => false
  | .seq l => decide (l.length ≠ 0)
  | .str s => decide (s.length ≠ 0)

/-- The elements `uniformObject[i]` iterated by line 246: array elements
are the stored values; a string's elements are its one-character
substrings — themselves strings. -/
def JSArg.elems : JSArg → List JSArg
  | .obj _ _ => []
  | .seq l => l
  | .str s => s.toList.map (fun c => JSArg.str (String.mk [c]))

/-- `uniformObject.name` of line 249, after JS property-key coercion:
a missing name (`undefined`) is used as the string key `"undefined"`. -/
def JSArg.keyName : JSArg → String
  | .obj n _ => n
  | .seq _ => "undefined"
  | .str _ => "undefined"

/-- `uniformObject.value` of line 250: `undefined` on a non-object. -/
def JSArg.value : JSArg → ParamValue
  | .obj _ v => v
  | .seq _ => .undefined
  | .str _ => .undefined

/-- The single-argument `setParameter` overload (lines 240-265), run on the
parameter table with an explicit call-stack budget: when the argument has a
truthy `length` it re-enters itself once per element (line 246), otherwise
it extracts `{name, value}` and upserts.  `Option.none` is exhaustion of
the budget — JS stack overflow; a call that diverges returns `Option.none`
for every budget. -/
def setParameterFuel : Nat → JSArg → List (String × Param) → Option (List (String × Param))
  | 0, _, _ => Option.none
  | fuel + 1, a, ps =>
      if a.truthyLength then
        a.elems.foldlM (fun acc e => setParameterFuel fuel e acc) ps
      else
        some (upsertParam a.keyName a.value ps)

mutual

/-- The arguments on which the recursion of lines 240-265 bottoms out:
plain objects, empty strings, and sequences of such arguments (a nonempty
string is excluded: its elements are nonempty strings again). -/
def goodArg : JSArg → Bool
  | .obj _ _ => true
  | .str s => decide (s.length = 0)
  | .seq l => goodArgList l

/-- `goodArg` on every element of a sequence. -/
def goodArgList : List JSArg → Bool
  | [] => true
  | a :: rest => goodArg a && goodArgList rest

end

mutual

/-- Nesting depth of a `setParameter` argument: a budget that suffices for
the recursion on arguments that bottom out. -/
def argDepth : JSArg → Nat
  | .obj _ _ => 1
  | .str _ => 1
  | .seq l => 1 + argDepthList l

/-- The maximum `argDepth` over a list of arguments. -/
def argDepthList : List JSArg → Nat
  | [] => 0
  | a :: rest => max (argDepth a) (argDepthList rest)

end

/-- `setParameters` (lines 286-295), acting on the parameter list in
iteration order: resolve `scopeId` when it is unset, then push the value
through the handle; returns the updated records and the trace of device
calls.  The active device's resolver is the explicit argument `resolve`. -/
def setParametersLoop (resolve : String → Nat) :
    List (String × Param) → List (String × Param) × List Effect
  | [] => ([], [])
  | (n, p) :: rest =>
      let sid : Nat := match p.scopeId with
        | some s => s
        | Option.none => resolve n
      let es : List Effect := match p.scopeId with
        | some _ => [Effect.setValue sid p.data]
        | Option.none => [Effect.resolveName n, Effect.setValue sid p.data]
      let r := setParametersLoop resolve rest
      ((n, { p with scopeId := some sid }) :: r.1, es ++ r.2)

/-- `setParameters` on the material: the table keeps its names and order,
each record's handle now resolved. -/
def Material.setParameters (m : Material) (resolve : String → Nat) :
    Material × List Effect :=
  let r := setParametersLoop resolve m.parameters
  ({ m with parameters := r.1 }, r.2)

/-- `deleteParameter` (lines 274-278): remove the entry if present,
a no-op when absent. -/
def deleteParamEntry (name : String) : List (String × Param) → List (String × Param)
  | [] => []
  | (n, p) :: rest =>
      if n = name then rest else (n, p) :: deleteParamEntry name rest

/-- `deleteParameter` on the material. -/
def Material.deleteParameter (m : Material) (name : String) : Material :=
  match lookupParam name m.parameters with
  | some _ => { m with parameters := deleteParamEntry name m.parameters }
  | Option.none => m

/-- A concrete non-default material: the NORMAL quadruple produced by
direct field assignment (bypassing the setter), one attached mesh instance
with a cached shader, one stored parameter, one variant, and non-default
render state. -/
def mat1 : Material :=
  { (Material.new 0).1 with
      name := "glass"
      blend := true
      blendSrc := .BLENDMODE_SRC_ALPHA
      blendDst := .BLENDMODE_ONE_MINUS_SRC_ALPHA
      alphaTest := 3
      cull := .CULLFACE_FRONT
      depthWrite := false
      shader := some 11
      variants := [("V", 4)]
      parameters := [("tint", ⟨some 5, .num 9⟩)]
      meshInstances := [⟨some 7⟩, ⟨Option.none⟩] }

/-- A concrete material whose blend quadruple
`(true, ONE, ZERO, ADD)` matches no row of the table. -/
def mat2 : Material :=
  { (Material.new 3).1 with blend := true }

/-- `setParameter` diverges on the argument `a`: the element-wise recursion
of lines 240-265 exhausts every finite call-stack budget, whatever the
current parameter table. -/
def setParameterDiverges (a : JSArg) : Prop :=
  ∀ fuel ps, setParameterFuel fuel a ps = Option.none

/-- Unpacking a blend-quadruple equation into the four field equations. -/
theorem blendQuad_fields (m : Material) (b : Bool) (s d : BlendMode) (e : BlendEquation)
    (h : m.blend = b ∧ m.blendSrc = s ∧ m.blendDst = d ∧ m.blendEquation = e) :
    m.blendQuad = (b, s, d, e) := by
  simp [Material.blendQuad, h.1, h.2.1, h.2.2.1, h.2.2.2]

/-- C1: for each of the six presets, setting the blend type and reading it
back returns the same preset; and any material whose four raw blend fields
equal that preset's canonical quadruple — however produced — reads back as
that preset. -/
theorem blendType_table_roundtrip (m : Material) (t : BlendType)
    (q : Bool × BlendMode × BlendMode × BlendEquation)
    (hq : specBlendRow t = some q) :
    (m.setBlendType t).1.blendType = t ∧ (m.blendQuad = q → m.blendType = t) := by
  have hfields : ∀ b s d e, m.blendQuad = (b, s, d, e) →
      m.blend = b ∧ m.blendSrc = s ∧ m.blendDst = d ∧ m.blendEquation = e := by
    intro b s d e h
    simpa [Material.blendQuad, Prod.ext_iff] using h
  cases t <;> simp only [specBlendRow, Option.some.injEq] at hq
  case BLEND_SUBTRACTIVE => exact Option.noConfusion hq
  all_goals subst hq
  all_goals refine ⟨by simp [Material.setBlendType, Material.blendType], ?_⟩
  all_goals
    intro h
  all_goals
    obtain ⟨h1, h2, h3, h4⟩ := hfields _ _ _ _ h
  all_goals
    simp [Material.blendType, h1, h2, h3, h4]

/-- C1 witness: the round trip at `ADDITIVE`, and `mat1` — whose NORMAL
quadruple was assigned field by field — reads back as `NORMAL`. -/
theorem blendType_table_roundtrip_witness :
    (mat1.setBlendType .BLEND_ADDITIVE).1.blendType = .BLEND_ADDITIVE
      ∧ mat1.blendType = .BLEND_NORMAL := by
  refine ⟨(blendType_table_roundtrip mat1 .BLEND_ADDITIVE
      (true, .BLENDMODE_ONE, .BLENDMODE_ONE, .BLENDEQUATION_ADD) (by decide)).1,
    (blendType_table_roundtrip mat1 .BLEND_NORMAL
      (true, .BLENDMODE_SRC_ALPHA, .BLENDMODE_ONE_MINUS_SRC_ALPHA, .BLENDEQUATION_ADD)
      (by decide)).2 (by decide)⟩

/-- C2: for every recognized preset, the setter assigns exactly that
preset's full quadruple — all four fields. -/
theorem setBlendType_sets_full_quad (m : Material) (t : BlendType)
    (q : Bool × BlendMode × BlendMode × BlendEquation)
    (hq : specBlendRow t = some q) :
    (m.setBlendType t).1.blendQuad = q := by
  cases t <;> simp only [specBlendRow, Option.some.injEq] at hq
  case BLEND_SUBTRACTIVE => exact Option.noConfusion hq
  all_goals subst hq
  all_goals simp [Material.setBlendType, Material.blendQuad]

/-- C2 witness: setting `MULTIPLICATIVE` on `mat1` writes the full
`(true, DST_COLOR, ZERO, ADD)` quadruple. -/
theorem setBlendType_sets_full_quad_witness :
    (mat1.setBlendType .BLEND_MULTIPLICATIVE).1.blendQuad
      = (true, .BLENDMODE_DST_COLOR, .BLENDMODE_ZERO, .BLENDEQUATION_ADD) :=
  setBlendType_sets_full_quad mat1 .BLEND_MULTIPLICATIVE _ (by decide)

/-- C3: a material whose quadruple matches no row of the table reads back
as `NORMAL`; the getter is a total function, so the read never fails. -/
theorem blendType_fallback (m : Material)
    (h : ∀ t : BlendType, specBlendRow t ≠ some m.blendQuad) :
    m.blendType = .BLEND_NORMAL := by
  rw [Material.blendType]
  split
  next hc => exact absurd (by rw [blendQuad_fields m _ _ _ _ hc]; rfl) (h .BLEND_NONE)
  next =>
    split
    next => rfl
    next =>
      split
      next hc => exact absurd (by rw [blendQuad_fields m _ _ _ _ hc]; rfl) (h .BLEND_ADDITIVE)
      next =>
        split
        next hc =>
          exact absurd (by rw [blendQuad_fields m _ _ _ _ hc]; rfl) (h .BLEND_ADDITIVEALPHA)
        next =>
          split
          next hc =>
            exact absurd (by rw [blendQuad_fields m _ _ _ _ hc]; rfl) (h .BLEND_MULTIPLICATIVE)
          next =>
            split
            next hc =>
              exact absurd (by rw [blendQuad_fields m _ _ _ _ hc]; rfl) (h .BLEND_PREMULTIPLIED)
            next => rfl

/-- C3 witness: `mat2` has the unmatched quadruple `(true, ONE, ZERO, ADD)`
and reads back as `NORMAL`. -/
theorem blendType_fallback_witness : mat2.blendType = .BLEND_NORMAL :=
  blendType_fallback mat2 (by decide)

/-- The key-refresh loop starting at index `i` emits one `updateKey` call
per remaining index, in order. -/
theorem updateKeysFrom_eq (len i : Nat) :
    updateKeysFrom len i = (List.range' i (len - i)).map Effect.updateKey := by
  rw [updateKeysFrom]
  split
  next h =>
    rw [updateKeysFrom_eq len (i + 1)]
    have hlen : len - i = (len - (i + 1)) + 1 := by omega
    rw [hlen, List.range'_succ, List.map_cons]
  next h =>
    have hlen : len - i = 0 := by omega
    simp [hlen]
termination_by len - i

/-- C4: every write through the blend-type setter emits, before returning,
exactly one `updateKey()` call per attached mesh instance — one for each
index below `n`, and nothing else — and leaves the mesh-instance list
itself untouched. -/
theorem setBlendType_updates_keys (m : Material) (t : BlendType) :
    (m.setBlendType t).2 = (List.range m.meshInstances.length).map Effect.updateKey
      ∧ (m.setBlendType t).1.meshInstances = m.meshInstances := by
  have hmesh : (m.setBlendType t).1.meshInstances = m.meshInstances := by
    cases t <;> rfl
  refine ⟨?_, hmesh⟩
  have htrace : (m.setBlendType t).2 = (m.setBlendType t).1.updateMeshInstanceKeys := by
    cases t <;> rfl
  rw [htrace, Material.updateMeshInstanceKeys, hmesh, updateKeysFrom_eq,
    Nat.sub_zero, List.range_eq_range']

/-- C5: setting an unrecognized preset leaves every field of the material
unchanged; the setter is a total function, so it never raises. -/
theorem setBlendType_unrecognized_noop (m : Material) (t : BlendType)
    (h : specBlendRow t = Option.none) :
    (m.setBlendType t).1 = m := by
  cases t <;> first
    | rfl
    | exact Option.noConfusion h

/-- C5 witness: the documented-but-unhandled `BLEND_SUBTRACTIVE` preset
leaves `mat1` exactly as it was. -/
theorem setBlendType_unrecognized_noop_witness :
    (mat1.setBlendType .BLEND_SUBTRACTIVE).1 = mat1 :=
  setBlendType_unrecognized_noop mat1 .BLEND_SUBTRACTIVE (by decide)

/-- Looking up the upserted name finds the new value under the record's
previous handle (or an unresolved handle when the record is new). -/
theorem upsertParam_lookup_self (name : String) (v : ParamValue) :
    ∀ ps : List (String × Param),
      lookupParam name (upsertParam name v ps)
        = some ⟨(lookupParam name ps).bind Param.scopeId, v⟩
  | [] => by simp [upsertParam, lookupParam]
  | (n, p) :: rest => by
      by_cases h : n = name
      · simp [upsertParam, lookupParam, h]
      · simp [upsertParam, lookupParam, h, upsertParam_lookup_self name v rest]

/-- Upserting one name leaves every other name's record untouched. -/
theorem upsertParam_lookup_other (name other : String) (v : ParamValue)
    (h : other ≠ name) :
    ∀ ps : List (String × Param),
      lookupParam other (upsertParam name v ps) = lookupParam other ps
  | [] => by simp [upsertParam, lookupParam, Ne.symm h]
  | (n, p) :: rest => by
      by_cases hn : n = name
      · subst hn
        simp [upsertParam, lookupParam, Ne.symm h]
      · simp [upsertParam, lookupParam, hn, upsertParam_lookup_other name other v h rest]

/-- C6: `setParameter(name, value)` upserts — an existing record keeps its
cached handle and only its value changes; a missing record is inserted
with an unresolved handle; other records are untouched.  In particular
after `setParameter("x",1)` then `setParameter("x",2)` the stored value is
`2` and the handle is exactly the one present after the first call. -/
theorem setParameter_upsert (m : Material) (name other : String) (v : ParamValue)
    (hother : other ≠ name) :
    ((m.setParameterNamed name v).getParameter name
        = some ⟨(m.getParameter name).bind Param.scopeId, v⟩)
    ∧ ((m.setParameterNamed name v).getParameter other = m.getParameter other)
    ∧ (((m.setParameterNamed "x" (.num 1)).setParameterNamed "x" (.num 2)).getParameter "x"
        = some ⟨((m.setParameterNamed "x" (.num 1)).getParameter "x").bind Param.scopeId,
            .num 2⟩) := by
  refine ⟨?_, ?_, ?_⟩
  · simpa [Material.getParameter, Material.setParameterNamed] using
      upsertParam_lookup_self name v m.parameters
  · simpa [Material.getParameter, Material.setParameterNamed] using
      upsertParam_lookup_other name other v hother m.parameters
  · simpa [Material.getParameter, Material.setParameterNamed] using
      upsertParam_lookup_self "x" (.num 2) (upsertParam "x" (.num 1) m.parameters)

/-- C6 witness: on `mat1`, overwriting the stored `"tint"` parameter keeps
its resolved handle `5`, and an unrelated name is untouched. -/
theorem setParameter_upsert_witness :
    ((mat1.setParameterNamed "tint" (.num 1)).getParameter "tint"
        = some ⟨(mat1.getParameter "tint").bind Param.scopeId, .num 1⟩)
    ∧ ((mat1.setParameterNamed "tint" (.num 1)).getParameter "fog"
        = mat1.getParameter "fog")
    ∧ (((mat1.setParameterNamed "x" (.num 1)).setParameterNamed "x" (.num 2)).getParameter "x"
        = some ⟨((mat1.setParameterNamed "x" (.num 1)).getParameter "x").bind Param.scopeId,
            .num 2⟩) :=
  setParameter_upsert mat1 "tint" "fog" (.num 1) (by decide)

/-- C7: `clone` yields a material whose id differs from the source's,
whose name and render-state scalars equal the source's, and whose
parameter table, variant cache, mesh-instance list and shader start
empty.  The hypothesis is the id-counter invariant: every live material's
id is below the current counter. -/
theorem clone_fresh_and_copies (m : Material) (ctr : Nat) (h : m.id < ctr) :
    (m.clone ctr).1.id ≠ m.id
    ∧ (m.clone ctr).1.name = m.name
    ∧ (m.clone ctr).1.alphaTest = m.alphaTest
    ∧ (m.clone ctr).1.blend = m.blend
    ∧ (m.clone ctr).1.blendSrc = m.blendSrc
    ∧ (m.clone ctr).1.blendDst = m.blendDst
    ∧ (m.clone ctr).1.blendEquation = m.blendEquation
    ∧ (m.clone ctr).1.cull = m.cull
    ∧ (m.clone ctr).1.depthTest = m.depthTest
    ∧ (m.clone ctr).1.depthWrite = m.depthWrite
    ∧ (m.clone ctr).1.redWrite = m.redWrite
    ∧ (m.clone ctr).1.greenWrite = m.greenWrite
    ∧ (m.clone ctr).1.blueWrite = m.blueWrite
    ∧ (m.clone ctr).1.alphaWrite = m.alphaWrite
    ∧ (m.clone ctr).1.parameters = []
    ∧ (m.clone ctr).1.variants = []
    ∧ (m.clone ctr).1.meshInstances = []
    ∧ (m.clone ctr).1.shader = Option.none := by
  refine ⟨?_, rfl, rfl, rfl, rfl, rfl, rfl, rfl, rfl, rfl, rfl, rfl, rfl, rfl, rfl, rfl,
    rfl, rfl⟩
  show ctr + 1 ≠ m.id
  omega

/-- C7 witness: cloning the non-default `mat1` at counter value `5`. -/
theorem clone_fresh_and_copies_witness :
    (mat1.clone 5).1.id ≠ mat1.id
    ∧ (mat1.clone 5).1.name = mat1.name
    ∧ (mat1.clone 5).1.blendSrc = mat1.blendSrc
    ∧ (mat1.clone 5).1.parameters = []
    ∧ (mat1.clone 5).1.meshInstances = [] :=
  ⟨(clone_fresh_and_copies mat1 5 (by decide)).1,
    (clone_fresh_and_copies mat1 5 (by decide)).2.1,
    (clone_fresh_and_copies mat1 5 (by decide)).2.2.2.2.1,
    (clone_fresh_and_copies mat1 5 (by decide)).2.2.2.2.2.2.2.2.2.2.2.2.2.2.1,
    (clone_fresh_and_copies mat1 5 (by decide)).2.2.2.2.2.2.2.2.2.2.2.2.2.2.2.2.1⟩

/-- The `setParameters` loop keeps names, order and values, resolves
exactly the unset handles, and emits one resolve call per unset handle
followed by one value push per record, in table order. -/
theorem setParametersLoop_eq (resolve : String → Nat) :
    ∀ ps : List (String × Param),
      ((setParametersLoop resolve ps).1
          = ps.map (fun e => (e.1, ⟨some (e.2.scopeId.getD (resolve e.1)), e.2.data⟩)))
      ∧ ((setParametersLoop resolve ps).2
          = ps.flatMap (fun e =>
              match e.2.scopeId with
              | some s => [Effect.setValue s e.2.data]
              | Option.none => [Effect.resolveName e.1,
                  Effect.setValue (resolve e.1) e.2.data]))
  | [] => by simp [setParametersLoop]
  | (n, p) :: rest => by
      obtain ⟨ih1, ih2⟩ := setParametersLoop_eq resolve rest
      cases hp : p.scopeId <;>
        simp [setParametersLoop, hp, ih1, ih2]

/-- C8: `setParameters` walks every entry of the table in order; a record
with an unset handle has it resolved through the device's binding-name
resolver exactly once and the handle is stored back, a previously resolved
handle is reused without re-resolution, and every record's current value
is pushed through its handle into the active scope. -/
theorem setParameters_pushes_all (m : Material) (resolve : String → Nat) :
    ((m.setParameters resolve).1.parameters
        = m.parameters.map (fun e => (e.1, ⟨some (e.2.scopeId.getD (resolve e.1)), e.2.data⟩)))
    ∧ ((m.setParameters resolve).2
        = m.parameters.flatMap (fun e =>
            match e.2.scopeId with
            | some s => [Effect.setValue s e.2.data]
            | Option.none => [Effect.resolveName e.1,
                Effect.setValue (resolve e.1) e.2.data])) :=
  setParametersLoop_eq resolve m.parameters

/-- `clearShaders` is the pointwise nulling of the cached shader slot. -/
theorem clearShaders_eq : ∀ l : List MeshInstance,
    clearShaders l = l.map (fun mi => { mi with _shader := Option.none })
  | [] => rfl
  | mi :: rest => by simp [clearShaders, clearShaders_eq rest]

/-- C9: `clearVariants` empties the variant cache and sets the cached
shader slot of every attached mesh instance to null, preserving the
list's length. -/
theorem clearVariants_clears (m : Material) :
    (m.clearVariants).variants = []
    ∧ (m.clearVariants).meshInstances.length = m.meshInstances.length
    ∧ (∀ mi ∈ (m.clearVariants).meshInstances, mi._shader = Option.none) := by
  refine ⟨rfl, ?_, ?_⟩
  · simp [Material.clearVariants, clearShaders_eq]
  · intro mi hmi
    have hmem : mi ∈ m.meshInstances.map
        (fun mi => ({ mi with _shader := Option.none } : MeshInstance)) := by
      simpa [Material.clearVariants, clearShaders_eq] using hmi
    obtain ⟨x, _hx, hfx⟩ := List.mem_map.mp hmem
    rw [← hfx]

/-- C10 counterexample: `setParameter("a")` never reaches the
non-recursive case — a string has a truthy `length` and its elements are
one-character strings, so `setParameter("a")` re-enters itself on `"a"`
and exhausts every finite call-stack budget, whatever the parameter
table. -/
theorem setParameter_diverges_on_string : setParameterDiverges (JSArg.str "a") := by
  intro fuel
  induction fuel with
  | zero => intro ps; rfl
  | succ n ih =>
      intro ps
      rw [setParameterFuel]
      have htruthy : (JSArg.str "a").truthyLength = true := rfl
      have helems : (JSArg.str "a").elems = [JSArg.str "a"] := rfl
      rw [helems] at *
      simp [htruthy, List.foldlM_cons, ih ps]

/-- The element loop of line 246 runs to completion when the one-step
recursion runs to completion on every element of the sequence. -/
theorem setParameterFuel_foldlM_isSome (n : Nat)
    (ih : ∀ a, goodArg a = true → argDepth a ≤ n →
        ∀ ps, (setParameterFuel n a ps).isSome = true) :
    ∀ (l : List JSArg), goodArgList l = true → argDepthList l ≤ n →
      ∀ ps, (List.foldlM (fun acc e => setParameterFuel n e acc) ps l).isSome = true
  | [] => by intro _ _ ps; simp
  | x :: xs => by
      intro hg hd ps
      simp only [goodArgList, Bool.and_eq_true] at hg
      simp only [argDepthList, max_le_iff] at hd
      have h1 := ih x hg.1 hd.1 ps
      obtain ⟨ps1, hps1⟩ := Option.isSome_iff_exists.mp h1
      rw [List.foldlM_cons, hps1]
      simpa using setParameterFuel_foldlM_isSome n ih xs hg.2 hd.2 ps1

/-- C10 amended: the single-argument `setParameter` reaches the
non-recursive record-insertion case within call depth `argDepth a` for
every argument whose strings are all empty — plain `{name, value}`
objects, empty strings and empty or nested sequences of such — but not
for every input: on a nonempty string it never terminates (see the
counterexample), because a string's elements are nonempty strings
again. -/
theorem setParameter_terminates_on_wf :
    ∀ (fuel : Nat) (a : JSArg), goodArg a = true → argDepth a ≤ fuel →
      ∀ ps, (setParameterFuel fuel a ps).isSome = true := by
  intro fuel
  induction fuel with
  | zero =>
      intro a hg hd ps
      cases a <;> simp only [argDepth] at hd <;> omega
  | succ n ih =>
      intro a hg hd ps
      cases a with
      | obj nm v =>
          rw [setParameterFuel]
          simp [JSArg.truthyLength]
      | str s =>
          have hs : s.length = 0 := by simpa [goodArg] using hg
          rw [setParameterFuel]
          simp [JSArg.truthyLength, hs]
      | seq l =>
          rw [setParameterFuel]
          by_cases hl : l.length = 0
          · simp [JSArg.truthyLength, hl]
          · have hgl : goodArgList l = true := by simpa [goodArg] using hg
            have hdl : argDepthList l ≤ n := by
              simp only [argDepth] at hd
              omega
            have hrun := setParameterFuel_foldlM_isSome n ih l hgl hdl ps
            simpa [JSArg.truthyLength, hl, JSArg.elems] using hrun

/-- C10 amended-claim witness: a two-element sequence of `{name, value}`
objects runs to completion within budget 2. -/
theorem setParameter_terminates_on_wf_witness :
    goodArg (JSArg.seq [JSArg.obj "x" (.num 1), JSArg.obj "y" (.num 2)]) = true
    ∧ argDepth (JSArg.seq [JSArg.obj "x" (.num 1), JSArg.obj "y" (.num 2)]) ≤ 2
    ∧ (setParameterFuel 2 (JSArg.seq [JSArg.obj "x" (.num 1), JSArg.obj "y" (.num 2)])
        []).isSome = true :=
  ⟨by simp [goodArg, goodArgList], by simp [argDepth, argDepthList],
    setParameter_terminates_on_wf 2 _ (by simp [goodArg, goodArgList])
      (by simp [argDepth, argDepthList]) []⟩

/-- C9 witness: on `mat1`, whose first mesh instance held a cached shader,
`clearVariants` empties the cache and nulls each instance's slot. -/
theorem clearVariants_clears_witness :
    (mat1.clearVariants).variants = []
    ∧ (mat1.clearVariants).meshInstances.length = mat1.meshInstances.length
    ∧ (⟨Option.none⟩ : MeshInstance)._shader = Option.none :=
  ⟨(clearVariants_clears mat1).1, (clearVariants_clears mat1).2.1,
    (clearVariants_clears mat1).2.2 ⟨Option.none⟩ (by decide)⟩
